import Mathlib

/-!
Shallow embedding of `src/kit_pm/core.py` (Kit package registry and validator).

Modelling conventions:
- Python `float` trust scores are modelled as `ℚ`; the policy threshold `0.5`
  is exactly representable in binary floating point, so `>=` comparisons agree.
- Python `str.lower` is modelled by `String.toLower` (agrees on ASCII).
- Python substring test `q in s` is modelled by an explicit character-list scan.
- The Python `dict` `self._packages` is modelled as an association list in
  insertion order; `dict[k] = v` replaces in place when the key exists, else
  appends (Python 3.7+ insertion-order semantics).
- Network effects (`requests.get` / `requests.post`) are modelled by passing
  the outcome of the single call as an explicit parameter: a 2xx response with
  its (parsed) body, a non-2xx response, or a raised exception
  (timeout / connection refused / body not JSON).
- JSON documents are modelled pre-parsed: a registry document is the ordered
  `packages` mapping with each field either present (`some`) or absent
  (`none`); `dependencies` gets a second `Option` layer to distinguish an
  absent key from an explicit JSON `null`.
-/

namespace KitPM

/-- Does the text begin with the given pattern? (helper for the substring test). -/
def beginsWith : List Char → List Char → Bool
  | [], _ => true
  | _ :: _, [] => false
  | p :: ps, c :: cs => p == c && beginsWith ps cs

/-- Occurrence of `q` as a contiguous substring of the text
(Python `q in s` on the underlying characters). -/
def hasSub (q : List Char) : List Char → Bool
  | [] => q.isEmpty
  | c :: cs => beginsWith q (c :: cs) || hasSub q cs

/-- Python `q in s` for strings. -/
def strIn (q s : String) : Bool := hasSub q.data s.data

/-- Python `s.lower()`: characterwise lowercasing (ASCII, as `Char.toLower`). -/
def lowerStr (s : String) : String := ⟨s.data.map Char.toLower⟩

/-- The `Package` dataclass of `core.py` (lines 63-89), after
`__post_init__` has run: `dependencies` is always a list, never `None`.
`mcp_config` is an opaque blob for the core; modelled as an opaque string. -/
structure Package where
  name : String
  version : String
  description : String
  trust_score : ℚ
  jis_compliant : Bool
  snaft_verified : Bool
  pypi : Option String := none
  npm : Option String := none
  dependencies : List String := []
  mcp_config : Option String := none
  author : String := "Unknown"
deriving DecidableEq, Repr

/-- `Package.__post_init__` (lines 78-80): a `None` passed for
`dependencies` becomes the empty list. -/
def postInitDeps (d : Option (List String)) : List String := d.getD []

/-- `Package.is_trusted` (lines 82-89). -/
def Package.is_trusted (p : Package) : Bool :=
  decide (p.trust_score ≥ (1/2 : ℚ)) && p.jis_compliant && p.snaft_verified

/-- One entry of the registry document's `packages` mapping, with each JSON
field either present or absent. For `dependencies`, `some none` is an explicit
JSON `null` and `none` an absent key (both reach `[]` in the record, by the
`dict.get` default and `__post_init__` respectively). -/
structure RegEntry where
  name : Option String := none
  version : Option String := none
  description : Option String := none
  trust_score : Option ℚ := none
  jis_compliant : Option Bool := none
  snaft_verified : Option Bool := none
  pypi : Option String := none
  npm : Option String := none
  dependencies : Option (Option (List String)) := none
  mcp_config : Option String := none
  author : Option String := none
deriving DecidableEq, Repr

/-- Construction of one `Package` from a document entry, `core.py` lines
122-134: each field defaulted by `pkg_data.get(...)`, the record key `key`
serving as the default `name`, and `__post_init__` normalising a `null`
dependencies value. -/
def mkPackage (key : String) (e : RegEntry) : Package :=
  { name := e.name.getD key
    version := e.version.getD "0.0.0"
    description := e.description.getD ""
    trust_score := e.trust_score.getD 0
    jis_compliant := e.jis_compliant.getD false
    snaft_verified := e.snaft_verified.getD false
    pypi := e.pypi
    npm := e.npm
    dependencies := postInitDeps (e.dependencies.getD (some []))
    mcp_config := e.mcp_config
    author := e.author.getD "Unknown" }

/-- The in-memory store `self._packages`: a Python dict in insertion order. -/
abbrev Registry := List (String × Package)

/-- An ordered `packages` mapping of a parsed registry document. -/
abbrev Doc := List (String × RegEntry)

/-- Python `dict[k] = v`: replace in place when the key exists, append
otherwise. -/
def dictInsert : Registry → String → Package → Registry
  | [], k, v => [(k, v)]
  | kv :: rest, k, v =>
    if kv.1 == k then (k, v) :: rest else kv :: dictInsert rest k v

/-- Python `dict.get(k)`: first (unique) binding of the exact key. -/
def lookupKey : Registry → String → Option Package
  | [], _ => none
  | kv :: rest, k => if kv.1 == k then some kv.2 else lookupKey rest k

/-- The loop body of `_load` (lines 121-134): assign every document entry
into the current dict, in document order. Note `_load` does NOT clear
`self._packages` first. -/
def loadInto (cur : Registry) (doc : Doc) : Registry :=
  doc.foldl (fun acc kv => dictInsert acc kv.1 (mkPackage kv.1 kv.2)) cur

/-- `PackageRegistry._load` (lines 113-137) as a function of the current
store and the parse outcome of the registry file: a missing file or any
exception (malformed JSON, wrong shape) empties the store; a parsed document
is assigned entry-by-entry into the existing dict. -/
def loadReg (cur : Registry) (doc : Option Doc) : Registry :=
  match doc with
  | none => []
  | some entries => loadInto cur entries

/-- `PackageRegistry.get` (lines 139-141): exact dict lookup of the
lowercased argument. The stored keys themselves are NOT lowercased by
`_load`. -/
def regGet (reg : Registry) (name : String) : Option Package :=
  lookupKey reg (lowerStr name)

/-- The match condition of the `search` loop (lines 148-150): lowercased
query against lowercased dict key, description, and record name. -/
def searchMatch (q : String) (kv : String × Package) : Bool :=
  strIn q (lowerStr kv.1) || strIn q (lowerStr kv.2.description) ||
    strIn q (lowerStr kv.2.name)

/-- `PackageRegistry.search` (lines 143-152): lowercase the query once, then
append every matching package in iteration (insertion) order. -/
def regSearch (reg : Registry) (query : String) : List Package :=
  reg.foldl
    (fun results kv =>
      if searchMatch (lowerStr query) kv then results ++ [kv.2] else results)
    []

/-- `PackageRegistry.list_all` (lines 154-156). -/
def regListAll (reg : Registry) : List Package := reg.map Prod.snd

/-- Outcome of the single `requests.get` in `update` (and of the writes that
follow a 2xx response): a 2xx response carries the parse outcome of its body
(`none` = body not a valid document); `notOk` is any non-2xx response;
`exc` is an exception anywhere in the `try` block before `_load` runs
(timeout, connection error, mkdir/write failure). -/
inductive FetchOutcome where
  | ok (doc : Option Doc)
  | notOk
  | exc
deriving DecidableEq, Repr

/-- `PackageRegistry.update` (lines 158-169): on a 2xx response the body is
persisted and `_load` re-runs over the existing store, returning `True`;
a non-2xx response falls through to `return False`; any exception is
swallowed and `False` returned, the store untouched. -/
def regUpdate (cur : Registry) (f : FetchOutcome) : Registry × Bool :=
  match f with
  | .ok d => (loadReg cur d, true)
  | .notOk => (cur, false)
  | .exc => (cur, false)

/-- The warning string of line 225 (Python f-string with the score
interpolated; number formatting modelled by `toString` on `ℚ`). -/
def trustWarning (score : ℚ) : String :=
  "Trust score " ++ toString score ++ " below minimum 0.5"

/-- The result dict of `KitValidator.validate` (lines 213-220). -/
structure ValidationResult where
  valid : Bool
  trust_ok : Bool
  jis_ok : Bool
  snaft_ok : Bool
  ai_response : Option String
  warnings : List String
deriving DecidableEq, Repr

/-- Outcome of the single `requests.post` to the advisory endpoint in
`validate` (lines 238-252): a 2xx response whose JSON carries the response
text (`""` when the field is missing), a non-2xx response (no exception:
`requests` does not raise on status), or an exception (timeout, connection
refused, body not JSON). -/
inductive AdvisoryOutcome where
  | success (text : String)
  | httpError
  | exc
deriving DecidableEq, Repr

/-- `KitValidator.validate` (lines 202-254), sequential updates mirroring the
Python: the dict starts `valid=True` with the three check booleans computed
up front, each failing check sets `valid=False` and appends its warning in
order, then the advisory call fills `ai_response`: response text on a 2xx
response, untouched (`None`) on a non-2xx response, the offline sentinel
when an exception was raised. `action` only feeds the advisory prompt. -/
def validate (package : Package) (action : String) (adv : AdvisoryOutcome) :
    ValidationResult :=
  let result : ValidationResult :=
    { valid := true
      trust_ok := decide (package.trust_score ≥ (1/2 : ℚ))
      jis_ok := package.jis_compliant
      snaft_ok := package.snaft_verified
      ai_response := none
      warnings := [] }
  let result :=
    if !result.trust_ok then
      { result with valid := false
                    warnings := result.warnings ++
                      [trustWarning package.trust_score] }
    else result
  let result :=
    if !result.jis_ok then
      { result with valid := false
                    warnings := result.warnings ++
                      ["Package is not JIS compliant"] }
    else result
  let result :=
    if !result.snaft_ok then
      { result with valid := false
                    warnings := result.warnings ++
                      ["Package is not SNAFT verified"] }
    else result
  match adv with
  | .success t => { result with ai_response := some t }
  | .httpError => result
  | .exc =>
    { result with ai_response := some "Kit AI offline, using local validation" }

/-! Concrete artifacts used by counterexamples and witnesses. -/

/-- A fully trusted package (the spec's `alpha` scenario). -/
def pkgAlpha : Package :=
  { name := "alpha", version := "1.0.0", description := "first package"
    trust_score := 9/10, jis_compliant := true, snaft_verified := true }

/-- A document entry with every field present. -/
def entryBeta : RegEntry :=
  { name := some "beta", version := some "2.0.0"
    description := some "second package", trust_score := some (2/10)
    jis_compliant := some false, snaft_verified := some true }

/-- An entry left entirely to defaults. -/
def entryBare : RegEntry := {}

/-! Theorems for the claims. -/

/-- C1: for every package `p` and action string, `validate` returns a verdict
with `trust_ok = (p.trust_score >= 0.5)`, `jis_ok = p.jis_compliant`,
`snaft_ok = p.snaft_verified`, `valid` the conjunction of the three, and the
warnings list holding exactly one message per failed check — the trust
message (with the score), the JIS message, the SNAFT message — in the fixed
order trust, compliance, verification; an all-passing package yields an
empty warnings list. -/
theorem validate_policy (p : Package) (a : String) (adv : AdvisoryOutcome) :
    (validate p a adv).trust_ok = decide (p.trust_score ≥ (1/2 : ℚ)) ∧
    (validate p a adv).jis_ok = p.jis_compliant ∧
    (validate p a adv).snaft_ok = p.snaft_verified ∧
    (validate p a adv).valid =
      ((validate p a adv).trust_ok && (validate p a adv).jis_ok &&
        (validate p a adv).snaft_ok) ∧
    (validate p a adv).warnings =
      (if (validate p a adv).trust_ok then []
        else [trustWarning p.trust_score]) ++
      (if (validate p a adv).jis_ok then []
        else ["Package is not JIS compliant"]) ++
      (if (validate p a adv).snaft_ok then []
        else ["Package is not SNAFT verified"]) := by
  cases adv <;> simp only [validate] <;>
    cases ht : decide (p.trust_score ≥ (1/2 : ℚ)) <;>
      cases hj : p.jis_compliant <;> cases hs : p.snaft_verified <;> simp

/-- C2: the deterministic components of the verdict (`valid`, `trust_ok`,
`jis_ok`, `snaft_ok`, `warnings`) do not depend on the advisory call's
outcome: any two outcomes (success with any text, non-2xx response, or
exception) yield identical deterministic components. -/
theorem advisory_independent (p : Package) (a : String)
    (adv1 adv2 : AdvisoryOutcome) :
    (validate p a adv1).valid = (validate p a adv2).valid ∧
    (validate p a adv1).trust_ok = (validate p a adv2).trust_ok ∧
    (validate p a adv1).jis_ok = (validate p a adv2).jis_ok ∧
    (validate p a adv1).snaft_ok = (validate p a adv2).snaft_ok ∧
    (validate p a adv1).warnings = (validate p a adv2).warnings := by
  cases adv1 <;> cases adv2 <;> simp [validate]

/-- C10: the verdict's `valid` field coincides with the package's own
`is_trusted` property, for every action and advisory outcome. -/
theorem validate_valid_iff_trusted (p : Package) (a : String)
    (adv : AdvisoryOutcome) :
    (validate p a adv).valid = p.is_trusted := by
  cases adv <;> simp only [validate, Package.is_trusted] <;>
    cases ht : decide (p.trust_score ≥ (1/2 : ℚ)) <;>
      cases hj : p.jis_compliant <;> cases hs : p.snaft_verified <;> simp

/-- C5 counterexample: a non-2xx advisory response is a failure of the
advisory call, yet `validate` leaves `ai_response` as `None` there (the
`if response.ok` guard simply does not fire, and no exception is raised), so
the advisory text is NOT set to the offline sentinel as the claim states. -/
theorem advisory_http_error_leaves_unset :
    (validate pkgAlpha "install" AdvisoryOutcome.httpError).ai_response
        = none ∧
    (validate pkgAlpha "install" AdvisoryOutcome.httpError).ai_response ≠
      some "Kit AI offline, using local validation" := by
  have hnum : ¬((9 : ℚ)/10 < 2⁻¹) := by norm_num
  refine ⟨?_, ?_⟩ <;> simp [validate, pkgAlpha, hnum]

/-- C5 amended: an advisory-call exception (timeout, connection refused,
non-JSON body) is swallowed and sets `ai_response` to the fixed offline
sentinel; a non-2xx response is also swallowed but leaves `ai_response`
unset (`None`); a 2xx response stores its response text. No failure mode
alters anything but `ai_response`. -/
theorem advisory_outcome_sets_text (p : Package) (a : String) :
    (validate p a AdvisoryOutcome.exc).ai_response =
      some "Kit AI offline, using local validation" ∧
    (validate p a AdvisoryOutcome.httpError).ai_response = none ∧
    ∀ t : String,
      (validate p a (AdvisoryOutcome.success t)).ai_response = some t := by
  refine ⟨?_, ?_, fun t => ?_⟩ <;> simp only [validate] <;>
    cases ht : decide (p.trust_score ≥ (1/2 : ℚ)) <;>
      cases hj : p.jis_compliant <;> cases hs : p.snaft_verified <;> simp

/-! Registry lemmas and claim theorems. -/

/-- A dict assignment with a fresh key leaves every other key's binding
unchanged. -/
theorem lookupKey_dictInsert_ne (d : Registry) (k k2 : String) (v : Package)
    (h : k ≠ k2) : lookupKey (dictInsert d k v) k2 = lookupKey d k2 := by
  induction d with
  | nil => simp [dictInsert, lookupKey, h]
  | cons kv rest ih =>
    by_cases hk : kv.1 = k
    · simp [dictInsert, lookupKey, hk, h]
    · by_cases hk2 : kv.1 = k2 <;>
        simp [dictInsert, lookupKey, hk, hk2, Ne.symm h, ih]

/-- Loading a document whose keys all avoid `k` leaves the binding of `k`
unchanged. -/
theorem lookupKey_loadInto_of_not_mem (doc : Doc) (cur : Registry)
    (k : String) (h : ∀ e ∈ doc, e.1 ≠ k) :
    lookupKey (loadInto cur doc) k = lookupKey cur k := by
  induction doc generalizing cur with
  | nil => rfl
  | cons e rest ih =>
    have h1 : lookupKey (loadInto (dictInsert cur e.1 (mkPackage e.1 e.2))
        rest) k = lookupKey (dictInsert cur e.1 (mkPackage e.1 e.2)) k :=
      ih _ (fun e2 he2 => h e2 (List.mem_cons_of_mem _ he2))
    calc lookupKey (loadInto cur (e :: rest)) k
        = lookupKey (loadInto (dictInsert cur e.1 (mkPackage e.1 e.2))
            rest) k := rfl
      _ = lookupKey cur k := by
            rw [h1, lookupKey_dictInsert_ne _ _ _ _ (h e (List.mem_cons_self _ _))]

/-- The document entries the registry was refreshed from. -/
def docAB : Doc := [("alpha", {}), ("beta", entryBeta)]

/-- A refreshed document that dropped the `beta` entry. -/
def docOnlyA : Doc := [("alpha", {})]

/-- Store state after loading `docAB` into an empty registry. -/
def regAB : Registry := loadReg [] (some docAB)

/-- C3 counterexample: refreshing `regAB` (holding `alpha` and `beta`) with a
document holding only `alpha` succeeds, yet `get "beta"` still returns the
old record afterwards — `_load` assigns into the existing dict without
clearing it, so a successful refresh merges rather than replaces, and a
record absent from the new document is still returned. -/
theorem refresh_keeps_deleted_record :
    (regUpdate regAB (FetchOutcome.ok (some docOnlyA))).2 = true ∧
    regGet (regUpdate regAB (FetchOutcome.ok (some docOnlyA))).1 "beta" =
      some (mkPackage "beta" entryBeta) := ⟨rfl, rfl⟩

/-- C3 amended: a successful refresh loads the new document's records into
the existing store (overwriting same-key entries in place) and reports
success, but it is a merge, not a wholesale replacement: every record whose
key is absent from the new document is still present, unchanged, after the
refresh. -/
theorem update_success_merges (cur : Registry) (d : Doc) (k : String)
    (p : Package) (hcur : lookupKey cur k = some p)
    (habs : ∀ e ∈ d, e.1 ≠ k) :
    regUpdate cur (FetchOutcome.ok (some d)) = (loadInto cur d, true) ∧
    lookupKey (regUpdate cur (FetchOutcome.ok (some d))).1 k = some p := by
  refine ⟨rfl, ?_⟩
  exact (lookupKey_loadInto_of_not_mem d cur k habs).trans hcur

/-- Witness for `update_success_merges` at the concrete refresh of `regAB`
by `docOnlyA`. -/
theorem update_success_merges_witness :
    lookupKey (regUpdate regAB (FetchOutcome.ok (some docOnlyA))).1 "beta" =
      some (mkPackage "beta" entryBeta) :=
  (update_success_merges regAB docOnlyA "beta" (mkPackage "beta" entryBeta)
    rfl (by decide)).2

/-- A document whose single key is capitalised. -/
def docFoo : Doc := [("Foo", {})]

/-- C4 counterexample: `_load` stores keys exactly as written in the
document, not lowercased, while `get` lowercases its argument; so after
loading a document with key `"Foo"`, no casing variant of that key — not
even `"Foo"` itself — is found by `get`. -/
theorem get_misses_uppercase_key :
    regGet (loadReg [] (some docFoo)) "Foo" = none ∧
    regGet (loadReg [] (some docFoo)) "foo" = none ∧
    regGet (loadReg [] (some docFoo)) "FOO" = none := ⟨rfl, rfl, rfl⟩

/-- C4 amended: keys are stored exactly as they appear in the document and
only the `get` argument is lowercased; therefore `get` is a case-insensitive
lookup precisely over stored keys that are already lowercase: any casing
variant of a lowercase stored key finds its record, and a name whose
lowercasing matches no stored key yields absence (`none`), not an error. -/
theorem get_case_insensitive_lowered (reg : Registry) (k : String)
    (p : Package) (hk : lookupKey reg k = some p) (n : String)
    (hn : lowerStr n = k) :
    regGet reg n = some p ∧
    ∀ m : String, lookupKey reg (lowerStr m) = none → regGet reg m = none := by
  constructor
  · simpa [regGet, hn] using hk
  · intro m hm
    simpa [regGet] using hm

/-- Store state after loading a single lowercase-keyed entry. -/
def regLower : Registry := loadReg [] (some [("foo", entryBare)])

/-- Witness for `get_case_insensitive_lowered` at a mixed-case query against
the lowercase stored key `"foo"`, and an absent name. -/
theorem get_case_insensitive_lowered_witness :
    regGet regLower "FoO" = some (mkPackage "foo" entryBare) ∧
    regGet regLower "bar" = none :=
  ⟨(get_case_insensitive_lowered regLower "foo" (mkPackage "foo" entryBare)
      rfl "FoO" rfl).1,
   (get_case_insensitive_lowered regLower "foo" (mkPackage "foo" entryBare)
      rfl "FoO" rfl).2 "bar" rfl⟩

/-- C6: a refresh that fails — non-2xx response (`notOk`) or exception
(`exc`: network error, timeout) — leaves the in-memory registry exactly as
it was (`list_all` included) and returns `false` instead of raising. -/
theorem update_failure_state_unchanged (cur : Registry) :
    regUpdate cur FetchOutcome.notOk = (cur, false) ∧
    regUpdate cur FetchOutcome.exc = (cur, false) ∧
    regListAll (regUpdate cur FetchOutcome.notOk).1 = regListAll cur ∧
    regListAll (regUpdate cur FetchOutcome.exc).1 = regListAll cur :=
  ⟨rfl, rfl, rfl, rfl⟩

/-- C7: a missing or malformed registry document (parse outcome `none`)
empties the store without raising, and `search`, `list_all` and `get` on the
resulting store return empty results rather than throwing (totality is by
construction in this embedding; `_load` swallows the exception and `search`
and `list_all` only iterate the dict). -/
theorem load_failure_usable (cur : Registry) (q : String) :
    loadReg cur none = [] ∧ regSearch (loadReg cur none) q = [] ∧
    regListAll (loadReg cur none) = [] ∧ regGet (loadReg cur none) q = none :=
  ⟨rfl, rfl, rfl, rfl⟩

/-- C8: constructing a record from a document entry applies the defaults for
missing fields — name from the registry key, version `"0.0.0"`, empty
description, `trust_score` 0, `jis_compliant` and `snaft_verified` false,
author `"Unknown"` — and the `dependencies` field is always a list: the
empty list when the key is absent or explicitly `null` (via `dict.get`'s
default and `__post_init__`), the given list otherwise. -/
theorem entry_defaults (k : String) (e : RegEntry) :
    (e.name = none → (mkPackage k e).name = k) ∧
    (e.version = none → (mkPackage k e).version = "0.0.0") ∧
    (e.description = none → (mkPackage k e).description = "") ∧
    (e.trust_score = none → (mkPackage k e).trust_score = 0) ∧
    (e.jis_compliant = none → (mkPackage k e).jis_compliant = false) ∧
    (e.snaft_verified = none → (mkPackage k e).snaft_verified = false) ∧
    (e.author = none → (mkPackage k e).author = "Unknown") ∧
    ((e.dependencies = none ∨ e.dependencies = some none) →
      (mkPackage k e).dependencies = []) ∧
    (∀ l, e.dependencies = some (some l) → (mkPackage k e).dependencies = l) :=
  ⟨fun h => by simp [mkPackage, h],
   fun h => by simp [mkPackage, h],
   fun h => by simp [mkPackage, h],
   fun h => by simp [mkPackage, h],
   fun h => by simp [mkPackage, h],
   fun h => by simp [mkPackage, h],
   fun h => by simp [mkPackage, h],
   fun h => by
     rcases h with h | h <;> simp [mkPackage, postInitDeps, h],
   fun l h => by simp [mkPackage, postInitDeps, h]⟩

/-- Witness for `entry_defaults` at the all-defaults entry and at an entry
carrying an explicit `null` dependencies value. -/
theorem entry_defaults_witness :
    (mkPackage "w" entryBare).name = "w" ∧
    (mkPackage "w" entryBare).version = "0.0.0" ∧
    (mkPackage "w" entryBare).description = "" ∧
    (mkPackage "w" entryBare).trust_score = 0 ∧
    (mkPackage "w" entryBare).jis_compliant = false ∧
    (mkPackage "w" entryBare).snaft_verified = false ∧
    (mkPackage "w" entryBare).author = "Unknown" ∧
    (mkPackage "w" entryBare).dependencies = [] ∧
    (mkPackage "w" { dependencies := some none }).dependencies = [] ∧
    (mkPackage "w" { dependencies := some (some ["d"]) }).dependencies
        = ["d"] :=
  ⟨(entry_defaults "w" entryBare).1 rfl,
   (entry_defaults "w" entryBare).2.1 rfl,
   (entry_defaults "w" entryBare).2.2.1 rfl,
   (entry_defaults "w" entryBare).2.2.2.1 rfl,
   (entry_defaults "w" entryBare).2.2.2.2.1 rfl,
   (entry_defaults "w" entryBare).2.2.2.2.2.1 rfl,
   (entry_defaults "w" entryBare).2.2.2.2.2.2.1 rfl,
   (entry_defaults "w" entryBare).2.2.2.2.2.2.2.1 (Or.inl rfl),
   (entry_defaults "w" { dependencies := some none }).2.2.2.2.2.2.2.1
     (Or.inr rfl),
   (entry_defaults "w" { dependencies := some (some ["d"]) }).2.2.2.2.2.2.2.2
     ["d"] rfl⟩

/-- The `search` loop over any accumulator equals the accumulator followed
by the matches, in iteration order. -/
theorem search_foldl_filter (reg : Registry) (q : String)
    (acc : List Package) :
    reg.foldl (fun results kv =>
        if searchMatch q kv then results ++ [kv.2] else results) acc
      = acc ++ (reg.filter (searchMatch q)).map Prod.snd := by
  induction reg generalizing acc with
  | nil => simp
  | cons kv rest ih =>
    cases h : searchMatch q kv <;>
      simp [List.foldl_cons, List.filter_cons, h, ih]

/-- An entry whose record name differs from its registry key. -/
def entryDelta : RegEntry := { name := some "delta", description := some "other" }

/-- Store state after loading the key `"gamma"` bound to a record named
`"delta"`. -/
def regGamma : Registry := loadReg [] (some [("gamma", entryDelta)])

/-- C9 counterexample: the `search` loop also matches the registry KEY,
which `_load` lets differ from the record's `name` field (the entry's
explicit `name` overrides the key). Here neither the record's name
`"delta"` nor its description `"other"` contains `"gamma"`, yet
`search "gamma"` returns the record — so search is not a match against the
record's name and description alone. -/
theorem search_matches_registry_key :
    strIn "gamma" (lowerStr (mkPackage "gamma" entryDelta).name) = false ∧
    strIn "gamma" (lowerStr (mkPackage "gamma" entryDelta).description)
        = false ∧
    regSearch regGamma "gamma" = [mkPackage "gamma" entryDelta] :=
  ⟨rfl, rfl, rfl⟩

/-- C9 amended: `search` lowercases the query once and returns, in registry
iteration (insertion) order, exactly the records of the entries whose
registry key, record name, or description contains it as a substring
(case-insensitively); in particular the result is empty precisely when no
entry matches on any of the three. -/
theorem search_characterization (reg : Registry) (q : String) :
    regSearch reg q
        = (reg.filter (searchMatch (lowerStr q))).map Prod.snd ∧
    ((∀ kv ∈ reg, searchMatch (lowerStr q) kv = false) →
      regSearch reg q = []) := by
  have h := search_foldl_filter reg (lowerStr q) []
  constructor
  · simpa [regSearch] using h
  · intro hall
    have hf : reg.filter (searchMatch (lowerStr q)) = [] := by
      rw [List.filter_eq_nil_iff]
      intro a ha
      simp [hall a ha]
    simp only [regSearch, h, hf, List.map_nil, List.nil_append]

/-- Witness for `search_characterization` at a query matching nothing in
`regLower`. -/
theorem search_characterization_witness :
    regSearch regLower "zzz" = [] :=
  (search_characterization regLower "zzz").2 (by decide)

end KitPM
